import Mathlib

/-!
Verification development for the BLE multi-force-sensor handler.

The Python source is shallowly embedded over exact rationals (`ℚ` stands in
for Python floats; all arithmetic the claims depend on is exact in the
source expressions being modelled).  Embedded components:

* the notification-line parser (`LINE_RE` applied to the stripped frame text),
* `numpy` median and 1-D linear interpolation as used by the source,
* `V3ForceCalibrator.raw_to_force` / `_extrapolate_with_raw`
  (`src/Utils/sensorForceConverter.py`),
* `hampel_filter` and `AsyncSensorReader._save_data`,
* the `AsyncSensorReader` session state machine: `notification_handler`,
  `start_reading`, `_on_disconnect`, `_handle_disconnect`, `_clear_buffers`
  and the baseline-calibration window of `connect_device`
  (`src/Controller/sensorcontroller.py`).

External effects (BLE I/O, the asyncio loop, the filesystem) are modelled by
explicit parameters: the outcome of the save-confirmation capability is a
`PromptResult`, a persistence failure is a boolean `persistRaises`, and the
frames delivered during a window are a list of decoded strings.
-/

set_option maxRecDepth 4000

/-- Python `str.strip` whitespace set (`' \t\n\r\x0b\x0c'`). -/
def isPyWhitespace (c : Char) : Bool :=
  c = ' ' || c = '\t' || c = '\n' || c = '\r' || c = '\x0b' || c = '\x0c'

/-- Python `str.strip()` on the decoded frame text. -/
def pyStrip (s : String) : String :=
  let l := s.toList
  let l := (l.dropWhile isPyWhitespace).reverse
  let l := (l.dropWhile isPyWhitespace).reverse
  String.mk l

/-- Maximal run of ASCII digits (regex `\d+` is greedy). -/
def takeDigits : List Char → List Char × List Char
  | [] => ([], [])
  | c :: rest =>
    if c.isDigit then
      match takeDigits rest with
      | (ds, r) => (c :: ds, r)
    else ([], c :: rest)

/-- Digits to a natural number, most significant first. -/
def digitsToNat (ds : List Char) : ℕ :=
  ds.foldl (fun acc c => 10 * acc + (c.toNat - 48)) 0

/-- Regex fragment `-?\d+(?:\.\d+)?` parsed to an exact rational; returns the
remaining characters.  A dot not followed by a digit is left unconsumed,
matching the optional regex group. -/
def parseNumber (l : List Char) : Option (ℚ × List Char) :=
  let p := match l with
    | '-' :: rest => (true, rest)
    | _ => (false, l)
  match takeDigits p.2 with
  | ([], _) => none
  | (ds, l2) =>
    let intPart : ℚ := (digitsToNat ds : ℚ)
    let vr : ℚ × List Char :=
      match l2 with
      | '.' :: l3 =>
        match takeDigits l3 with
        | ([], _) => (intPart, l2)
        | (fs, l4) => (intPart + (digitsToNat fs : ℚ) / ((10 : ℚ) ^ fs.length), l4)
      | _ => (intPart, l2)
    some (if p.1 then -vr.1 else vr.1, vr.2)

/-- Regex fragment `-?\d+` (the `Time` group, whose value is unused). -/
def parseIntTok (l : List Char) : Option (List Char) :=
  let l1 := match l with
    | '-' :: rest => rest
    | _ => l
  match takeDigits l1 with
  | ([], _) => none
  | (_, l2) => some l2

/-- Literal-prefix matcher for the fixed pieces of `LINE_RE`. -/
def expectLit : List Char → List Char → Option (List Char)
  | [], rest => some rest
  | _ :: _, [] => none
  | c :: cs, d :: ds => if c = d then expectLit cs ds else none

/-- Embedding of `LINE_RE.match(line)` returning capture group 4 (the `V3` value).
`re.match` anchors at the start only, so trailing characters are allowed. -/
def lineMatch (s : String) : Option ℚ := do
  let l := s.toList
  let l ← expectLit "Time:".toList l
  let l ← parseIntTok l
  let l ← expectLit ",V1:".toList l
  let r1 ← parseNumber l
  let l ← expectLit ",V2:".toList r1.2
  let r2 ← parseNumber l
  let l ← expectLit ",V3:".toList r2.2
  let r3 ← parseNumber l
  let l ← expectLit ",V4:".toList r3.2
  let _ ← parseNumber l
  some r3.1

/-- Embedding of `numpy.median` on a 1-D array: sort ascending; odd length takes the middle
element, even length averages the two middle elements. -/
def npMedian (l : List ℚ) : ℚ :=
  let s := l.insertionSort (· ≤ ·)
  let n := l.length
  if n = 0 then 0
  else if n % 2 = 1 then s.getD (n / 2) 0
  else (s.getD (n / 2 - 1) 0 + s.getD (n / 2) 0) / 2

/-- Embedding of `numpy.interp(x, xp, fp)` over the zipped `(xp, fp)` points (xp sorted
non-decreasing): clamps below the first and above the last point, linear
interpolation in between. -/
def npInterp (x : ℚ) : List (ℚ × ℚ) → ℚ
  | [] => 0
  | [p] => p.2
  | p :: q :: rest =>
    if x ≤ p.1 then p.2
    else if x < q.1 then p.2 + (q.2 - p.2) * (x - p.1) / (q.1 - p.1)
    else npInterp x (q :: rest)

/-- Calibration conversion method (`method` constructor argument). -/
inductive CalMethod
  | piecewise
  | linear_fit
deriving DecidableEq

/-- State of a `V3ForceCalibrator` after construction: `_raw` sorted ascending with the
matching `_force` array, plus the configuration flags. -/
structure Calibrator where
  raw : List ℚ
  force : List ℚ
  method : CalMethod
  allow_extrapolation : Bool
deriving DecidableEq

/-- Degree-1 least squares (`np.polyfit(x, y, 1)`) in closed form. -/
def polyfit1 (xs ys : List ℚ) : ℚ × ℚ :=
  let n : ℚ := (xs.length : ℚ)
  let sx := xs.sum
  let sy := ys.sum
  let sxx := (xs.map (fun x => x * x)).sum
  let sxy := (List.zipWith (· * ·) xs ys).sum
  let d := n * sxx - sx * sx
  if d = 0 then (0, 0)
  else ((n * sxy - sx * sy) / d, (sy * sxx - sx * sxy) / d)

/-- Embedding of `V3ForceCalibrator._extrapolate_with_raw`: linear extrapolation from the
points at indices `i0, i1` of the shifted raw axis; a degenerate pair
(`x1 == x0`) returns `y0` without dividing. -/
def extrapolate_with_raw (force_arr : List ℚ) (x : ℚ) (raw_arr : List ℚ)
    (i0 i1 : ℕ) : ℚ :=
  let x0 := raw_arr.getD i0 0
  let y0 := force_arr.getD i0 0
  let x1 := raw_arr.getD i1 0
  let y1 := force_arr.getD i1 0
  if x1 = x0 then y0
  else y0 + (y1 - y0) / (x1 - x0) * (x - x0)

/-- Embedding of `V3ForceCalibrator.raw_to_force(raw_v3, currentMeanValue)`: shifts the
calibration raw axis by `currentMeanValue - raw[0]`, then either recomputes
the least-squares line (`linear_fit`) or interpolates piecewise, with linear
extrapolation from the two boundary points when enabled (the Python indices
`-2, -1` are the last two positions). -/
def raw_to_force (c : Calibrator) (raw_v3 currentMeanValue : ℚ) : ℚ :=
  let x := raw_v3
  let offset := currentMeanValue - c.raw.getD 0 0
  let raw_shifted := c.raw.map (· + offset)
  if c.method = CalMethod.linear_fit then
    let ab := polyfit1 raw_shifted c.force
    ab.1 * x + ab.2
  else
    if c.allow_extrapolation then
      if x ≤ raw_shifted.getD 0 0 then
        extrapolate_with_raw c.force x raw_shifted 0 1
      else if raw_shifted.getD (raw_shifted.length - 1) 0 ≤ x then
        extrapolate_with_raw c.force x raw_shifted
          (c.raw.length - 2) (c.raw.length - 1)
      else npInterp x (raw_shifted.zip c.force)
    else npInterp x (raw_shifted.zip c.force)

/-- The window `vals[max(0, i-half_w) : min(n, i+half_w+1)]` of `hampel_filter`
(ℕ subtraction is exactly `max(0, i - half_w)`). -/
def hampelWindow (vals : List ℚ) (window_size i : ℕ) : List ℚ :=
  let half_w := window_size / 2
  let start := i - half_w
  let stop := min vals.length (i + half_w + 1)
  (vals.drop start).take (stop - start)

/-- One output sample of `hampel_filter`: the window median and MAD are taken
over the original series; a zero MAD skips replacement (`continue`), otherwise
the sample is replaced by the window median when it deviates by more than
`n_sigmas * 1.4826 * mad` (1.4826 = 7413/5000). -/
def hampelAt (vals : List ℚ) (window_size : ℕ) (n_sigmas : ℚ) (i : ℕ) : ℚ :=
  let window := hampelWindow vals window_size i
  let med := npMedian window
  let mad := npMedian (window.map (fun v => |v - med|))
  if mad = 0 then vals.getD i 0
  else if n_sigmas * (7413 / 5000) * mad < |vals.getD i 0 - med| then med
  else vals.getD i 0

/-- Embedding of `hampel_filter(vals, window_size, n_sigmas)`: the source mutates a copy of
`vals` index by index while reading windows from the original `vals`, so the
result is the pointwise map of `hampelAt` over the indices. -/
def hampel_filter (vals : List ℚ) (window_size : ℕ) (n_sigmas : ℚ) : List ℚ :=
  (List.range vals.length).map (hampelAt vals window_size n_sigmas)

/-- Embedding of `AsyncSensorReader._save_data` (pure core): zips the raw and force buffers
into `(t_raw, raw, force)` rows, returns `none` (no file written) when the
combined list is empty, else the rows of the single CSV artifact
`(host_time, raw, force, filtered_raw)` with the despiked raw column. -/
def save_data (log_raw_data log_force_data : List (ℚ × ℚ)) :
    Option (List (ℚ × ℚ × ℚ × ℚ)) :=
  let combined := List.zipWith (fun p q => (p.1, p.2, q.2)) log_raw_data log_force_data
  if combined.isEmpty then none
  else
    let raw_values := combined.map (fun r => r.2.1)
    let filtered_raw := hampel_filter raw_values 11 5
    some (List.zipWith (fun (r : ℚ × ℚ × ℚ) (rf : ℚ) => (r.1, r.2.1, r.2.2, rf))
      combined filtered_raw)

/-- Shape of the `_pending_meta` dictionary: `{athlete_id, distance_cm, weight_kg}`. -/
structure SessionMeta where
  athlete_id : String
  distance_cm : ℚ
  weight_kg : ℤ
deriving DecidableEq

/-- The reset value of `_pending_meta` (constructor and `_clear_buffers`). -/
def defaultMeta : SessionMeta :=
  { athlete_id := "UNKNOWN", distance_cm := 0, weight_kg := 0 }

/-- The mutable state of one `AsyncSensorReader`.  `client_present` models
`self.client is not None` and `client_is_connected` models
`self.client.is_connected`; `prompt_cb_present` models
`self.prompt_save_cb is not None`. -/
structure ReaderState where
  is_connected : Bool
  is_reading : Bool
  disconnect_error : Bool
  intentional_disconnect : Bool
  client_present : Bool
  client_is_connected : Bool
  prompt_cb_present : Bool
  offSetValue : ℚ
  calibrator : Calibrator
  collected_raw_data : List (ℚ × ℚ)
  collected_force_data : List (ℚ × ℚ)
  pending_meta : SessionMeta
deriving DecidableEq

/-- Embedding of `AsyncSensorReader.notification_handler(sender, data)`: returns early when
not reading; otherwise strips and matches the decoded line, silently dropping
it on a failed match, and on success appends the raw sample and the converted
force sample in lock-step. -/
def notification_handler (st : ReaderState) (host_time : ℚ) (data : String) :
    ReaderState :=
  if st.is_reading = false then st
  else
    match lineMatch (pyStrip data) with
    | none => st
    | some v3_raw =>
      { st with
        collected_raw_data := st.collected_raw_data ++ [(host_time, v3_raw)],
        collected_force_data := st.collected_force_data ++
          [(host_time, raw_to_force st.calibrator v3_raw st.offSetValue)] }

/-- Embedding of `AsyncSensorReader.start_reading(athlete_id, distance_cm,
weight_kg, direction)`: fails without touching any state when the client is absent or not
connected; otherwise clears both buffers, snapshots the meta (an empty athlete
id falls back to "UNKNOWN", mirroring `athlete_id or "UNKNOWN"`), sets
`is_reading` only when `direction == 0`, and returns `True`. -/
def start_reading (st : ReaderState) (athlete_id : String) (distance_cm : ℚ)
    (weight_kg : ℤ) (direction : ℤ) : ReaderState × Bool :=
  if !(st.client_present && st.client_is_connected) then (st, false)
  else
    let st1 := { st with
      collected_raw_data := [],
      collected_force_data := [],
      pending_meta :=
        { athlete_id := if athlete_id = "" then "UNKNOWN" else athlete_id,
          distance_cm := distance_cm,
          weight_kg := weight_kg } }
    let st2 := if direction = 0 then { st1 with is_reading := true } else st1
    (st2, true)

/-- Embedding of `AsyncSensorReader._clear_buffers`: empties both sample buffers and resets
`_pending_meta` to its default dictionary. -/
def clear_buffers (st : ReaderState) : ReaderState :=
  { st with
    collected_raw_data := [],
    collected_force_data := [],
    pending_meta := defaultMeta }

/-- Embedding of `AsyncSensorReader._on_disconnect`: swallows the event when the disconnect
was intentional; otherwise flags the error, clears the reading/connected
flags, and schedules `_handle_disconnect` (the returned boolean). -/
def on_disconnect (st : ReaderState) : ReaderState × Bool :=
  if st.intentional_disconnect then (st, false)
  else
    ({ st with disconnect_error := true, is_reading := false, is_connected := false },
     true)

/-- Outcome of one invocation of the save-confirmation capability
(`prompt_save_cb`): it either resolves to a boolean answer or raises. -/
inductive PromptResult
  | answer (b : Bool)
  | raises
deriving DecidableEq

/-- Observable outcome of `_handle_disconnect`: the final session state,
whether `prompt_save_cb` was awaited, the `(raw, force, meta)` triple handed
to `_save_data` when the save path ran (`none` when discarded), and whether a
persistence exception propagated out of the coroutine. -/
structure DisconnectOutcome where
  state : ReaderState
  promptInvoked : Bool
  committed : Option (List (ℚ × ℚ) × List (ℚ × ℚ) × SessionMeta)
  persistRaised : Bool
deriving DecidableEq

/-- Embedding of `AsyncSensorReader._handle_disconnect` (body under the
`_disconnect_lock`):
computes `was_reading` from the buffers, best-effort closes the client, asks
`prompt_save_cb` only on an error disconnect with a callback present and
non-empty buffers (a raising callback is caught and defaults the answer to
save), discards when nothing is buffered or the user declined, and otherwise
commits the buffers via `_save_data` with the pending meta inside a
`try/finally` whose `finally` always clears buffers and meta.  `promptRes` is
the capability's behaviour when awaited; `persistRaises` says whether the
`_save_data` thread raised. -/
def handle_disconnect (st : ReaderState) (promptRes : PromptResult)
    (persistRaises : Bool) : DisconnectOutcome :=
  let was_reading := !st.collected_raw_data.isEmpty && !st.collected_force_data.isEmpty
  let st1 := if st.client_present then { st with client_present := false } else st
  let prompted := st1.disconnect_error && st1.prompt_cb_present && was_reading
  let save :=
    if prompted then
      match promptRes with
      | .answer b => b
      | .raises => true
    else true
  if !was_reading || !save then
    { state := clear_buffers st1, promptInvoked := prompted,
      committed := none, persistRaised := false }
  else
    { state := clear_buffers st1, promptInvoked := prompted,
      committed := some (st1.collected_raw_data, st1.collected_force_data,
        st1.pending_meta),
      persistRaised := persistRaises }

/-- The full link-lost path: the Bleak `disconnected_callback` runs
`_on_disconnect`, which schedules `_handle_disconnect` unless the disconnect
was intentional. -/
def link_lost (st : ReaderState) (promptRes : PromptResult)
    (persistRaises : Bool) : DisconnectOutcome :=
  let r := on_disconnect st
  if r.2 then handle_disconnect r.1 promptRes persistRaises
  else { state := r.1, promptInvoked := false, committed := none,
         persistRaised := false }

/-- The transient `_baseline_handler` of `connect_device` folded over the
frames delivered during the 5-second window: each frame is stripped and
matched, appending the parsed `V3` value on success and dropping the frame
otherwise. -/
def run_baseline_window (frames : List String) : List ℚ :=
  frames.foldl (fun acc d =>
    match lineMatch (pyStrip d) with
    | some v => acc ++ [v]
    | none => acc) []

/-- The tail of `connect_device` after the fixed 5-second baseline window:
sets `offSetValue` to the median of the collected samples when any arrived and
to `0.0` otherwise, then (in either case) subscribes the permanent handler,
marks the session connected and healthy, and returns `True`. -/
def connect_after_baseline (st : ReaderState) (frames : List String) :
    ReaderState × Bool :=
  let baseline_samples := run_baseline_window frames
  let off := if !baseline_samples.isEmpty then npMedian baseline_samples else 0
  ({ st with offSetValue := off, is_connected := true, disconnect_error := false },
   true)

/-- A two-point calibration table (the constructor's minimum). -/
def testCalib : Calibrator :=
  { raw := [0, 10], force := [0, 5], method := .piecewise,
    allow_extrapolation := true }

/-- A connected, reading session with empty buffers. -/
def testState : ReaderState :=
  { is_connected := true, is_reading := true, disconnect_error := false,
    intentional_disconnect := false, client_present := true,
    client_is_connected := true, prompt_cb_present := true, offSetValue := 0,
    calibrator := testCalib, collected_raw_data := [],
    collected_force_data := [], pending_meta := defaultMeta }

/-- An error-disconnected session with one buffered sample in each buffer. -/
def stErr : ReaderState :=
  { testState with
    disconnect_error := true,
    collected_raw_data := [(0, 1)],
    collected_force_data := [(0, 1/2)] }

/-- A table whose two (identical-raw) points make both extrapolation
boundaries degenerate. -/
def degenCalib : Calibrator :=
  { raw := [5, 5], force := [3, 7], method := .piecewise,
    allow_extrapolation := true }

/-- C1: in the error-path recovery with non-empty buffers and the
save-confirmation capability present, a capability that raises is treated
exactly as the answer "save": the run is identical to one where the user
answered `True`, the buffered data (with the pending meta) is handed to the
recorder, and the buffers are cleared afterwards. -/
theorem prompt_failure_defaults_to_save (st : ReaderState) (persistRaises : Bool)
    (herr : st.disconnect_error = true) (hcb : st.prompt_cb_present = true)
    (hraw : st.collected_raw_data ≠ []) (hforce : st.collected_force_data ≠ []) :
    handle_disconnect st PromptResult.raises persistRaises =
      handle_disconnect st (PromptResult.answer true) persistRaises ∧
    (handle_disconnect st PromptResult.raises persistRaises).promptInvoked = true ∧
    (handle_disconnect st PromptResult.raises persistRaises).committed =
      some (st.collected_raw_data, st.collected_force_data, st.pending_meta) ∧
    (handle_disconnect st PromptResult.raises persistRaises).state.collected_raw_data = [] ∧
    (handle_disconnect st PromptResult.raises persistRaises).state.collected_force_data = [] := by
  cases hcp : st.client_present <;>
    simp [handle_disconnect, clear_buffers, hcp, herr, hcb, hraw, hforce]

/-- C1 witness: a concrete error-disconnected session with buffered data whose
prompt raises; the recovery equals the explicit-save recovery and commits the
buffered sample. -/
theorem prompt_failure_defaults_to_save_witness :
    handle_disconnect stErr PromptResult.raises false =
      handle_disconnect stErr (PromptResult.answer true) false ∧
    (handle_disconnect stErr PromptResult.raises false).promptInvoked = true ∧
    (handle_disconnect stErr PromptResult.raises false).committed =
      some (stErr.collected_raw_data, stErr.collected_force_data, stErr.pending_meta) ∧
    (handle_disconnect stErr PromptResult.raises false).state.collected_raw_data = [] ∧
    (handle_disconnect stErr PromptResult.raises false).state.collected_force_data = [] :=
  prompt_failure_defaults_to_save stErr false rfl rfl
    (by simp [stErr, testState]) (by simp [stErr, testState])

/-- C2: when the intentional-disconnect flag is set at the moment the
link-lost callback fires, the save-confirmation capability is never invoked
during that disconnect (and the session state is left untouched by the
callback). -/
theorem intentional_disconnect_never_prompts (st : ReaderState)
    (promptRes : PromptResult) (persistRaises : Bool)
    (h : st.intentional_disconnect = true) :
    (link_lost st promptRes persistRaises).promptInvoked = false ∧
    (link_lost st promptRes persistRaises).state = st := by
  simp [link_lost, on_disconnect, h]

/-- C2 witness: a concrete reading session with full buffers whose disconnect
is intentional never reaches the prompt. -/
theorem intentional_disconnect_never_prompts_witness :
    (link_lost { stErr with intentional_disconnect := true }
        (PromptResult.answer false) false).promptInvoked = false ∧
    (link_lost { stErr with intentional_disconnect := true }
        (PromptResult.answer false) false).state =
      { stErr with intentional_disconnect := true } :=
  intentional_disconnect_never_prompts _ _ _ rfl

/-- C3: every run of `_handle_disconnect` — prompted or not, accepted or
declined, with or without a persistence exception — ends with both sample
buffers empty and the pending meta reset to its default. -/
theorem recovery_always_clears_buffers_and_meta (st : ReaderState)
    (promptRes : PromptResult) (persistRaises : Bool) :
    (handle_disconnect st promptRes persistRaises).state.collected_raw_data = [] ∧
    (handle_disconnect st promptRes persistRaises).state.collected_force_data = [] ∧
    (handle_disconnect st promptRes persistRaises).state.pending_meta = defaultMeta := by
  simp [handle_disconnect, clear_buffers, apply_ite DisconnectOutcome.state,
    apply_ite ReaderState.collected_raw_data,
    apply_ite ReaderState.collected_force_data,
    apply_ite ReaderState.pending_meta, ite_self]

/-- C4 counterexample: a connected session on which `start_reading` is called
with a non-zero `direction` returns `True` yet does not enter the Reading
state, contradicting the claim that a connected `startReading` always
transitions to `Reading`. -/
theorem start_reading_nonzero_direction_counterexample :
    ({ testState with is_reading := false } : ReaderState).client_present = true ∧
    ({ testState with is_reading := false } : ReaderState).client_is_connected = true ∧
    (start_reading { testState with is_reading := false } "A" 1 2 1).2 = true ∧
    (start_reading { testState with is_reading := false } "A" 1 2 1).1.is_reading
      = false := by
  refine ⟨rfl, rfl, ?_, ?_⟩ <;> with_unfolding_all decide

/-- C4 (amended): if the client is absent or not connected, `start_reading`
returns `False` and leaves the whole state untouched; otherwise it returns
`True`, clears both sample buffers and snapshots the supplied meta (an empty
athlete id becoming "UNKNOWN"), but sets the session to Reading only when the
`direction` argument is `0`, leaving the reading flag unchanged otherwise. -/
theorem start_reading_characterization (st : ReaderState) (athlete_id : String)
    (distance_cm : ℚ) (weight_kg : ℤ) (direction : ℤ) :
    ((st.client_present && st.client_is_connected) = false →
      start_reading st athlete_id distance_cm weight_kg direction = (st, false)) ∧
    ((st.client_present && st.client_is_connected) = true →
      (start_reading st athlete_id distance_cm weight_kg direction).2 = true ∧
      (start_reading st athlete_id distance_cm weight_kg direction).1.collected_raw_data = [] ∧
      (start_reading st athlete_id distance_cm weight_kg direction).1.collected_force_data = [] ∧
      (start_reading st athlete_id distance_cm weight_kg direction).1.pending_meta =
        { athlete_id := if athlete_id = "" then "UNKNOWN" else athlete_id,
          distance_cm := distance_cm, weight_kg := weight_kg } ∧
      (direction = 0 →
        (start_reading st athlete_id distance_cm weight_kg direction).1.is_reading = true) ∧
      (direction ≠ 0 →
        (start_reading st athlete_id distance_cm weight_kg direction).1.is_reading =
          st.is_reading)) := by
  by_cases hc : (st.client_present && st.client_is_connected) = true
  · by_cases hd : direction = 0 <;> simp [start_reading, hc, hd]
  · simp only [Bool.not_eq_true] at hc
    simp [start_reading, hc]

/-- C4 witness: on a concrete connected session with `direction = 0` the
amended characterization yields success, cleared buffers and the Reading
state. -/
theorem start_reading_characterization_witness :
    (testState.client_present && testState.client_is_connected) = true ∧
    (start_reading testState "A" 1 2 0).2 = true ∧
    (start_reading testState "A" 1 2 0).1.collected_raw_data = [] ∧
    (start_reading testState "A" 1 2 0).1.is_reading = true := by
  have h := (start_reading_characterization testState "A" 1 2 0).2 rfl
  exact ⟨rfl, h.1, h.2.1, h.2.2.2.2.1 rfl⟩

/-- C8: the notification handler keeps the raw and force buffers index-aligned:
assuming equal lengths beforehand, the lengths are equal afterwards; a
well-formed frame received while Reading appends exactly one sample to each
buffer in lock-step, and a malformed frame or a session that is not Reading
leaves the state untouched. -/
theorem notification_handler_lockstep (st : ReaderState) (t : ℚ) (data : String)
    (h : st.collected_raw_data.length = st.collected_force_data.length) :
    (notification_handler st t data).collected_raw_data.length =
      (notification_handler st t data).collected_force_data.length ∧
    (∀ v, st.is_reading = true → lineMatch (pyStrip data) = some v →
      (notification_handler st t data).collected_raw_data =
        st.collected_raw_data ++ [(t, v)] ∧
      (notification_handler st t data).collected_force_data =
        st.collected_force_data ++
          [(t, raw_to_force st.calibrator v st.offSetValue)]) ∧
    ((st.is_reading = false ∨ lineMatch (pyStrip data) = none) →
      notification_handler st t data = st) := by
  unfold notification_handler
  cases hr : st.is_reading
  · simp [h]
  · cases hm : lineMatch (pyStrip data) <;> simp [h, hm]

/-- C8 witness: a concrete well-formed frame received while Reading appends
exactly one raw sample and its converted force sample. -/
theorem notification_handler_lockstep_witness :
    (notification_handler testState 0 "Time:1,V1:0,V2:0,V3:7,V4:0").collected_raw_data =
      testState.collected_raw_data ++ [(0, 7)] ∧
    (notification_handler testState 0 "Time:1,V1:0,V2:0,V3:7,V4:0").collected_force_data =
      testState.collected_force_data ++
        [(0, raw_to_force testState.calibrator 7 testState.offSetValue)] :=
  (notification_handler_lockstep testState 0 "Time:1,V1:0,V2:0,V3:7,V4:0" rfl).2.1
    7 rfl (by with_unfolding_all decide)

/-- The transient baseline handler folded over the window's frames collects
exactly the parsed values of the well-formed frames, in arrival order. -/
theorem run_baseline_window_eq_filterMap (frames : List String) :
    run_baseline_window frames =
      frames.filterMap (fun d => lineMatch (pyStrip d)) := by
  have aux : ∀ (fs : List String) (acc : List ℚ),
      fs.foldl (fun acc d =>
        match lineMatch (pyStrip d) with
        | some v => acc ++ [v]
        | none => acc) acc =
      acc ++ fs.filterMap (fun d => lineMatch (pyStrip d)) := by
    intro fs
    induction fs with
    | nil => intro acc; simp
    | cons hd tl ih =>
      intro acc
      cases hm : lineMatch (pyStrip hd) <;>
        simp [List.foldl_cons, hm, ih, List.filterMap_cons]
  simpa [run_baseline_window] using aux frames []

/-- C5: after the baseline window of a connect, the session baseline equals
the median of the values parsed from the well-formed frames of the window when
at least one arrived, and `0.0` when none did; in either case the connect
continues (returns `True` with the session marked connected). -/
theorem baseline_median_or_zero (st : ReaderState) (frames : List String) :
    (frames.filterMap (fun d => lineMatch (pyStrip d)) ≠ [] →
      (connect_after_baseline st frames).1.offSetValue =
        npMedian (frames.filterMap (fun d => lineMatch (pyStrip d)))) ∧
    (frames.filterMap (fun d => lineMatch (pyStrip d)) = [] →
      (connect_after_baseline st frames).1.offSetValue = 0) ∧
    (connect_after_baseline st frames).2 = true ∧
    (connect_after_baseline st frames).1.is_connected = true := by
  by_cases hv : frames.filterMap (fun d => lineMatch (pyStrip d)) = [] <;>
    simp [connect_after_baseline, run_baseline_window_eq_filterMap, hv]

/-- C5 witness: one well-formed frame and one garbage frame during the window
give a baseline of 42 (the median of the single parsed sample) and the connect
continues. -/
theorem baseline_median_or_zero_witness :
    (connect_after_baseline testState
      ["Time:1,V1:0,V2:0,V3:42,V4:0", "garbage"]).1.offSetValue = 42 ∧
    (connect_after_baseline testState
      ["Time:1,V1:0,V2:0,V3:42,V4:0", "garbage"]).2 = true := by
  have h := baseline_median_or_zero testState
    ["Time:1,V1:0,V2:0,V3:42,V4:0", "garbage"]
  refine ⟨?_, h.2.2.1⟩
  rw [h.1 (by with_unfolding_all decide)]
  with_unfolding_all decide

/-- Evaluation of `getD` on a translated raw axis at an in-range index. -/
theorem getD_map_add (l : List ℚ) (d : ℚ) (i : ℕ) (h : i < l.length) :
    (l.map (fun v => v + d)).getD i 0 = l.getD i 0 + d := by
  rw [List.getD_eq_getElem?_getD, List.getD_eq_getElem?_getD, List.getElem?_map,
    List.getElem?_eq_getElem h]
  simp

/-- Translation invariance: `numpy.interp` is invariant under translating both the query and the knot
axis by the same amount. -/
theorem npInterp_shift (x d : ℚ) :
    ∀ pts : List (ℚ × ℚ),
      npInterp (x + d) (pts.map (fun p => (p.1 + d, p.2))) = npInterp x pts := by
  intro pts
  induction pts with
  | nil => rfl
  | cons p rest ih =>
    cases rest with
    | nil => rfl
    | cons q rest2 =>
      simp only [List.map_cons, npInterp]
      by_cases h1 : x ≤ p.1
      · rw [if_pos (by linarith), if_pos h1]
      · rw [if_neg (fun hc => h1 (by linarith)), if_neg h1]
        by_cases h2 : x < q.1
        · rw [if_pos (by linarith), if_pos h2]
          have e1 : x + d - (p.1 + d) = x - p.1 := by ring
          have e2 : q.1 + d - (p.1 + d) = q.1 - p.1 := by ring
          rw [e1, e2]
        · rw [if_neg (fun hc => h2 (by linarith)), if_neg h2]
          simpa only [List.map_cons] using ih

/-- Boundary extrapolation is invariant under translating both the query and
the shifted raw axis by the same amount (in-range indices). -/
theorem extrapolate_with_raw_shift (f : List ℚ) (x d : ℚ) (arr : List ℚ)
    (i0 i1 : ℕ) (h0 : i0 < arr.length) (h1 : i1 < arr.length) :
    extrapolate_with_raw f (x + d) (arr.map (fun v => v + d)) i0 i1 =
      extrapolate_with_raw f x arr i0 i1 := by
  unfold extrapolate_with_raw
  rw [getD_map_add arr d i0 h0, getD_map_add arr d i1 h1]
  by_cases h : arr.getD i1 0 = arr.getD i0 0
  · rw [if_pos (by rw [h]), if_pos h]
  · rw [if_neg (fun hc => h (by linarith)), if_neg h]
    have e1 : arr.getD i1 0 + d - (arr.getD i0 0 + d) =
        arr.getD i1 0 - arr.getD i0 0 := by ring
    have e2 : x + d - (arr.getD i0 0 + d) = x - arr.getD i0 0 := by ring
    rw [e1, e2]

/-- C6: for the piecewise method (any table with at least 2 points, any
extrapolation setting), shifting the query raw value by `b2 - b1` and
evaluating with baseline `b2` gives exactly the force obtained by evaluating
the unshifted query with baseline `b1`. -/
theorem piecewise_baseline_shift_linear (c : Calibrator)
    (hm : c.method = CalMethod.piecewise) (hn : 2 ≤ c.raw.length)
    (x b1 b2 : ℚ) :
    raw_to_force c (x + (b2 - b1)) b2 = raw_to_force c x b1 := by
  have h0 : 0 < c.raw.length := by omega
  have hmap : c.raw.map (fun v => v + (b2 - c.raw.getD 0 0)) =
      (c.raw.map (fun v => v + (b1 - c.raw.getD 0 0))).map
        (fun v => v + (b2 - b1)) := by
    rw [List.map_map]
    apply List.map_congr_left
    intro v _
    simp only [Function.comp_apply]
    ring
  have hlen : (c.raw.map (fun v => v + (b1 - c.raw.getD 0 0))).length =
      c.raw.length := List.length_map _ _
  unfold raw_to_force
  rw [hm]
  simp only [reduceCtorEq, if_false, hmap]
  set sh := c.raw.map (fun v => v + (b1 - c.raw.getD 0 0)) with hsh
  have hzip : (sh.map (fun v => v + (b2 - b1))).zip c.force =
      (sh.zip c.force).map (fun p => (p.1 + (b2 - b1), p.2)) := by
    rw [List.zip_map_left]
    apply List.map_congr_left
    intro p _
    cases p
    rfl
  cases hae : c.allow_extrapolation
  · simp only [if_false, Bool.false_eq_true]
    rw [hzip, npInterp_shift]
  · simp only [if_true]
    have hc0 : (0 : ℕ) < sh.length := by omega
    have hcl : sh.length - 1 < sh.length := by omega
    by_cases hb1 : x ≤ sh.getD 0 0
    · rw [if_pos (by rw [getD_map_add sh _ 0 hc0]; linarith), if_pos hb1]
      exact extrapolate_with_raw_shift c.force x (b2 - b1) sh 0 1 hc0 (by omega)
    · rw [if_neg (by rw [getD_map_add sh _ 0 hc0]; intro hc; exact hb1 (by linarith)),
        if_neg hb1]
      by_cases hb2 : sh.getD (sh.length - 1) 0 ≤ x
      · rw [if_pos (by
          rw [List.length_map, getD_map_add sh _ (sh.length - 1) hcl]; linarith),
          if_pos hb2]
        exact extrapolate_with_raw_shift c.force x (b2 - b1) sh
          (c.raw.length - 2) (c.raw.length - 1) (by omega) (by omega)
      · rw [if_neg (by
          rw [List.length_map, getD_map_add sh _ (sh.length - 1) hcl]
          intro hc; exact hb2 (by linarith)), if_neg hb2]
        rw [hzip, npInterp_shift]

/-- C6 witness: on the concrete two-point table, querying `3` at baseline `2`
and the shifted query `3 + (7 - 2)` at baseline `7` agree. -/
theorem piecewise_baseline_shift_linear_witness :
    testCalib.method = CalMethod.piecewise ∧ 2 ≤ testCalib.raw.length ∧
    raw_to_force testCalib (3 + (7 - 2)) 7 = raw_to_force testCalib 3 2 :=
  ⟨rfl, by decide, piecewise_baseline_shift_linear testCalib rfl (by decide) 3 2 7⟩

/-- C9: under the piecewise method with extrapolation enabled, a degenerate
extrapolation pair (equal shifted raw values on the two boundary points used)
makes the conversion return the force value of the pair's first point — a
point lying exactly at the boundary raw value — via the guard, so no division
by zero is ever formed.  The first conjunct is the lower boundary (points 0
and 1, both at shifted raw `b`), the second the upper boundary (the last two
points). -/
theorem degenerate_extrapolation_returns_boundary_force (c : Calibrator)
    (hm : c.method = CalMethod.piecewise) (he : c.allow_extrapolation = true)
    (hn : 2 ≤ c.raw.length) (x b : ℚ) :
    (c.raw.getD 0 0 = c.raw.getD 1 0 → x ≤ b →
      raw_to_force c x b = c.force.getD 0 0) ∧
    (c.raw.getD (c.raw.length - 2) 0 = c.raw.getD (c.raw.length - 1) 0 →
      b < x → c.raw.getD (c.raw.length - 1) 0 + (b - c.raw.getD 0 0) ≤ x →
      raw_to_force c x b = c.force.getD (c.raw.length - 2) 0) := by
  have h0 : (0 : ℕ) < c.raw.length := by omega
  have h1 : (1 : ℕ) < c.raw.length := by omega
  have hl1 : c.raw.length - 1 < c.raw.length := by omega
  have hl2 : c.raw.length - 2 < c.raw.length := by omega
  have hb : c.raw.getD 0 0 + (b - c.raw.getD 0 0) = b := by ring
  constructor
  · intro hdeg hx
    unfold raw_to_force
    rw [hm]
    simp only [reduceCtorEq, if_false, he, if_true]
    rw [if_pos (by rw [getD_map_add c.raw _ 0 h0, hb]; exact hx)]
    unfold extrapolate_with_raw
    rw [getD_map_add c.raw _ 0 h0, getD_map_add c.raw _ 1 h1]
    rw [if_pos (by rw [hdeg])]
  · intro hdeg hbx hxe
    unfold raw_to_force
    rw [hm]
    simp only [reduceCtorEq, if_false, he, if_true]
    rw [if_neg (by rw [getD_map_add c.raw _ 0 h0, hb]; exact not_le.mpr hbx)]
    rw [if_pos (by
      rw [List.length_map, getD_map_add c.raw _ (c.raw.length - 1) hl1]
      exact hxe)]
    unfold extrapolate_with_raw
    rw [getD_map_add c.raw _ (c.raw.length - 2) hl2,
      getD_map_add c.raw _ (c.raw.length - 1) hl1]
    rw [if_pos (by rw [hdeg])]

/-- C9 witness: on the two-coincident-point table, a query below the boundary
and a query above it both return the pair's first force value (3), with the
degenerate guard taken on both boundaries. -/
theorem degenerate_extrapolation_returns_boundary_force_witness :
    raw_to_force degenCalib 4 5 = degenCalib.force.getD 0 0 ∧
    raw_to_force degenCalib 6 5 =
      degenCalib.force.getD (degenCalib.raw.length - 2) 0 := by
  have ha := degenerate_extrapolation_returns_boundary_force degenCalib rfl rfl
    (by decide) 4 5
  have hb := degenerate_extrapolation_returns_boundary_force degenCalib rfl rfl
    (by decide) 6 5
  exact ⟨ha.1 (by with_unfolding_all decide) (by with_unfolding_all decide),
    hb.2 (by with_unfolding_all decide) (by with_unfolding_all decide)
      (by with_unfolding_all decide)⟩


/-- C10: at any index whose centered window has a median absolute deviation of
zero, the despike filter leaves the sample unchanged in the filtered output
(the `continue` branch — no replacement, no division by zero). -/
theorem hampel_zero_mad_keeps_sample (vals : List ℚ) (w : ℕ) (ns : ℚ) (i : ℕ)
    (hi : i < vals.length)
    (hmad : npMedian ((hampelWindow vals w i).map
      (fun v => |v - npMedian (hampelWindow vals w i)|)) = 0) :
    (hampel_filter vals w ns).getD i 0 = vals.getD i 0 := by
  rw [List.getD_eq_getElem?_getD]
  have h1 : (hampel_filter vals w ns)[i]? = some (hampelAt vals w ns i) := by
    simp [hampel_filter, List.getElem?_map, List.getElem?_range, hi]
  rw [h1]
  simp [hampelAt, hmad]

/-- C10 witness: a flat series has MAD 0 at index 0 and the filter keeps the
sample. -/
theorem hampel_zero_mad_keeps_sample_witness :
    (0 : ℕ) < ([1, 1, 1] : List ℚ).length ∧
    (hampel_filter [1, 1, 1] 11 5).getD 0 0 = ([1, 1, 1] : List ℚ).getD 0 0 :=
  ⟨by decide, hampel_zero_mad_keeps_sample [1, 1, 1] 11 5 0 (by decide)
    (by with_unfolding_all decide)⟩

/-- Evaluation of `getD` through `zipWith` at an index inside both lists (the defaults are
irrelevant there). -/
theorem getD_zipWith {α β γ : Type} (f : α → β → γ) (d1 : α) (d2 : β) (d3 : γ) :
    ∀ (l1 : List α) (l2 : List β) (i : ℕ), i < l1.length → i < l2.length →
      (List.zipWith f l1 l2).getD i d3 = f (l1.getD i d1) (l2.getD i d2)
  | [], _, i, h1, _ => by simp at h1
  | _ :: _, [], i, _, h2 => by simp at h2
  | a :: t1, b :: t2, 0, _, _ => by simp
  | a :: t1, b :: t2, i + 1, h1, h2 => by
    simp only [List.zipWith_cons_cons, List.getD_cons_succ]
    exact getD_zipWith f d1 d2 d3 t1 t2 i (by simpa using h1) (by simpa using h2)

/-- The raw column extracted from the combined rows is the raw buffer's value
column (equal-length buffers). -/
theorem combined_raw_column :
    ∀ (l1 l2 : List (ℚ × ℚ)), l1.length = l2.length →
      (List.zipWith (fun p q => (p.1, p.2, q.2)) l1 l2).map (fun r => r.2.1) =
        l1.map (fun p => p.2)
  | [], [], _ => rfl
  | [], _ :: _, h => by simp at h
  | _ :: _, [], h => by simp at h
  | a :: t1, b :: t2, h => by
    simp only [List.zipWith_cons_cons, List.map_cons]
    exact congrArg _ (combined_raw_column t1 t2 (by simpa using h))

/-- C7: saving index-aligned equal-length raw/force buffers returns no
artifact when the combined buffer is empty ("nothing to save", no file
written), and otherwise exactly one set of artifact rows, one row per sample
index, whose columns are the host time, the raw value, the force value and
the despiked raw value. -/
theorem save_data_rows_characterization (log_raw log_force : List (ℚ × ℚ))
    (h : log_raw.length = log_force.length) :
    (log_raw = [] → save_data log_raw log_force = none) ∧
    (log_raw ≠ [] → ∃ rows, save_data log_raw log_force = some rows ∧
      rows.length = log_raw.length ∧
      ∀ i, i < log_raw.length →
        rows.getD i (0, 0, 0, 0) =
          ((log_raw.getD i (0, 0)).1, (log_raw.getD i (0, 0)).2,
           (log_force.getD i (0, 0)).2,
           (hampel_filter (log_raw.map (fun p => p.2)) 11 5).getD i 0)) := by
  have hclen : (List.zipWith (fun (p : ℚ × ℚ) (q : ℚ × ℚ) => (p.1, p.2, q.2))
      log_raw log_force).length = log_raw.length := by
    rw [List.length_zipWith, h, Nat.min_self]
  constructor
  · intro he
    subst he
    simp [save_data]
  · intro hne
    have hcne : List.zipWith (fun (p : ℚ × ℚ) (q : ℚ × ℚ) => (p.1, p.2, q.2))
        log_raw log_force ≠ [] := by
      intro hc
      exact hne (List.length_eq_zero.mp (by rw [← hclen, hc, List.length_nil]))
    have hie : (List.zipWith (fun (p : ℚ × ℚ) (q : ℚ × ℚ) => (p.1, p.2, q.2))
        log_raw log_force).isEmpty = false := by
      cases hc : List.zipWith (fun (p : ℚ × ℚ) (q : ℚ × ℚ) => (p.1, p.2, q.2))
          log_raw log_force with
      | nil => exact absurd hc hcne
      | cons a t => rfl
    have hhlen : (hampel_filter ((List.zipWith
        (fun (p : ℚ × ℚ) (q : ℚ × ℚ) => (p.1, p.2, q.2)) log_raw
        log_force).map (fun r => r.2.1)) 11 5).length = log_raw.length := by
      simp [hampel_filter, hclen]
    refine ⟨List.zipWith (fun (r : ℚ × ℚ × ℚ) (rf : ℚ) => (r.1, r.2.1, r.2.2, rf))
      (List.zipWith (fun (p : ℚ × ℚ) (q : ℚ × ℚ) => (p.1, p.2, q.2)) log_raw
        log_force)
      (hampel_filter ((List.zipWith (fun (p : ℚ × ℚ) (q : ℚ × ℚ) =>
        (p.1, p.2, q.2)) log_raw log_force).map (fun r => r.2.1)) 11 5),
      ?_, ?_, ?_⟩
    · simp [save_data, hie]
    · rw [List.length_zipWith, hclen, hhlen, Nat.min_self]
    · intro i hi
      rw [getD_zipWith _ (0, 0, 0) 0 _ _ _ i (by rw [hclen]; exact hi)
        (by rw [hhlen]; exact hi)]
      rw [getD_zipWith _ (0, 0) (0, 0) _ log_raw log_force i hi (by omega)]
      rw [combined_raw_column log_raw log_force h]

/-- C7 witness: a one-sample pair of buffers yields exactly one artifact row
with the time, raw, force and filtered-raw columns. -/
theorem save_data_rows_characterization_witness :
    save_data [((1 : ℚ), (2 : ℚ))] [((1 : ℚ), (3 : ℚ))] ≠ none ∧
    save_data [] [] = none := by
  have h1 := save_data_rows_characterization [((1 : ℚ), (2 : ℚ))]
    [((1 : ℚ), (3 : ℚ))] rfl
  have h2 := save_data_rows_characterization [] [] rfl
  obtain ⟨rows, hrows, -, -⟩ := h1.2 (by simp)
  exact ⟨by rw [hrows]; simp, h2.1 rfl⟩
